import Mathlib

/-!
Shallow embedding of the translation core of the Chrome translate
extension (repository `wenjuandiaocha`), faithful to
`src/extension/background.js`, `src/extension/content.js` and
`src/extension/popup.js`.

Conventions of the embedding:
* JS timestamps (`Date.now()`) are `Int` milliseconds.
* `chrome.storage.local` is a finite association list from string keys to
  stored values; `chrome.storage.local.set` overwrites the value at a key
  in place, `get` reads it.  A possible rejection of the storage promise
  is an explicit boolean oracle (`getFails` / `setFails`), because the JS
  wraps both calls in try/catch.
* The single upstream `fetch` is an oracle value (`FetchOutcome`) saying
  how the promise settles: network rejection, or a response with an `ok`
  flag, a status and a JSON body.
* The background service worker is single-threaded and cooperative; for
  concurrency claims we model each invocation of `translateText` as a
  process with an explicit program counter and an event machine whose
  events are "the invocation runs up to its fetch dispatch" and "the
  invocation's fetch settles".
-/

namespace TranslateExt

/-- Upstream JSON translation result, as documented by the backend API
(`{translation, source_lang, target_lang, original_text, cached}`).
The extension treats it as an opaque object and stores it verbatim. -/
structure TransResult where
  translation : String
  source_lang : String
  target_lang : String
  original_text : String
  cached : Bool
deriving DecidableEq, Repr

/-- Value stored by `cacheTranslation` under a cache key:
`{data: result, timestamp: Date.now()}` (background.js lines 103-108). -/
structure CacheEntry where
  data : TransResult
  timestamp : Int
deriving DecidableEq, Repr

/-- The `chrome.storage.local` area, restricted to the translation keys:
a finite map from string keys to cache entries. -/
abbrev Store := List (String × CacheEntry)

/-- Read the value at a key (first binding wins; keys are kept unique by
`setKey`). -/
def lookupKey (store : Store) (k : String) : Option CacheEntry :=
  match store with
  | [] => none
  | (k₂, e) :: rest => if k₂ = k then some e else lookupKey rest k

/-- Overwrite-or-append semantics of `chrome.storage.local.set` for a
single key. -/
def setKey (store : Store) (k : String) (e : CacheEntry) : Store :=
  match store with
  | [] => [(k, e)]
  | (k₂, e₂) :: rest => if k₂ = k then (k, e) :: rest else (k₂, e₂) :: setKey rest k e

/-- Whether a key is present in the store. -/
def hasKey (store : Store) (k : String) : Bool :=
  (lookupKey store k).isSome

/-- The cache time-to-live used in background.js line 90:
`24 * 60 * 60 * 1000` milliseconds. -/
def ttlMs : Int := 24 * 60 * 60 * 1000

/-- The cache key of background.js line 50:
`` `translate_${text}_${sourceLang}_${targetLang}` ``. -/
def cacheKey (text sourceLang targetLang : String) : String :=
  "translate_" ++ text ++ "_" ++ sourceLang ++ "_" ++ targetLang

/-- `getCachedTranslation(key)` of background.js lines 86-98.
`getFails` is the oracle for a rejection of `chrome.storage.local.get`;
the catch block turns it into `null`.  A present entry is returned only
when `Date.now() - cached.timestamp < 24h`, and the function performs no
write: an expired entry is left in the store. -/
def getCachedTranslation (store : Store) (key : String) (now : Int)
    (getFails : Bool) : Option TransResult :=
  if getFails then none
  else
    match lookupKey store key with
    | some cached => if now - cached.timestamp < ttlMs then some cached.data else none
    | none => none

/-- `cacheTranslation(key, data)` of background.js lines 101-112.
`setFails` is the oracle for a rejection of `chrome.storage.local.set`;
the catch block swallows it, so the function never fails and at worst
leaves the store unchanged. -/
def cacheTranslation (store : Store) (key : String) (data : TransResult)
    (now : Int) (setFails : Bool) : Store :=
  if setFails then store else setKey store key { data := data, timestamp := now }

/-- A translation request as received by `translateText(text, sourceLang,
targetLang)`. -/
structure Req where
  text : String
  sourceLang : String
  targetLang : String
deriving DecidableEq, Repr

/-- How the single `fetch("http://localhost:8000/translate", ...)` promise
settles. -/
inductive FetchOutcome
  | networkError (msg : String)
  | response (ok : Bool) (status : Nat) (body : TransResult)
deriving DecidableEq, Repr

/-- Errors thrown out of `translateText`: the explicit
`` `翻译服务错误: ${status}` `` error for a non-ok response, or the
rethrown network error. -/
inductive TransError
  | http (status : Nat)
  | network (msg : String)
deriving DecidableEq, Repr

deriving instance DecidableEq for Except

/-- Observable outcome of one sequential run of `translateText`:
the settled value of the returned promise, the resulting storage state,
and the number of upstream `fetch` calls dispatched. -/
structure RunResult where
  result : Except TransError TransResult
  store : Store
  upstreamCalls : Nat
deriving DecidableEq, Repr

/-- Sequential (no interleaving) run of `translateText` from
background.js lines 47-83: compute the cache key, consult the cache and
return a hit unchanged; otherwise dispatch the upstream fetch, throw on a
non-ok status, and on success cache the body and return it.  The catch
block rethrows, so upstream errors propagate unchanged. -/
def translateTextRun (req : Req) (store : Store) (now : Int)
    (getFails : Bool) (fo : FetchOutcome) (setFails : Bool) : RunResult :=
  let key := cacheKey req.text req.sourceLang req.targetLang
  match getCachedTranslation store key now getFails with
  | some cached => { result := .ok cached, store := store, upstreamCalls := 0 }
  | none =>
    match fo with
    | .networkError msg =>
        { result := .error (.network msg), store := store, upstreamCalls := 1 }
    | .response ok status body =>
        if ok then
          { result := .ok body
            store := cacheTranslation store key body now setFails
            upstreamCalls := 1 }
        else
          { result := .error (.http status), store := store, upstreamCalls := 1 }

/-! ### Event machine for concurrent invocations of `translateText`

The service worker is single-threaded; an invocation of `translateText`
runs synchronously from its entry to the `fetch` dispatch (the cache read
resolves on the microtask queue before any other invocation's fetch can
settle), then suspends until its fetch settles.  An execution is a list of
events over a pool of invocations. -/

/-- Program counter of one invocation of `translateText`. -/
inductive PState
  | ready
  | awaitingFetch
  | done (r : Except TransError TransResult)
deriving DecidableEq, Repr

/-- One logical invocation of `translateText`. -/
structure Proc where
  req : Req
  st : PState
deriving DecidableEq, Repr

/-- State of the background service worker: the storage area, the pool of
invocations, the current time and the number of upstream fetches
dispatched so far. -/
structure Sys where
  store : Store
  procs : List Proc
  now : Int
  upstream : Nat
deriving DecidableEq, Repr

/-- Scheduler events: invocation `i` runs from its entry to its first
outcome (cache hit, or fetch dispatch), or invocation `i`'s pending fetch
settles as `fo`. -/
inductive Event
  | run (i : Nat)
  | fetchDone (i : Nat) (fo : FetchOutcome)
deriving DecidableEq, Repr

/-- Small-step transition of the service worker on one event, following
background.js lines 47-83.  Events naming an absent invocation or one in
the wrong state are no-ops. -/
def step (s : Sys) (e : Event) : Sys :=
  match e with
  | .run i =>
    match s.procs.get? i with
    | some p =>
      match p.st with
      | .ready =>
        let key := cacheKey p.req.text p.req.sourceLang p.req.targetLang
        match getCachedTranslation s.store key s.now false with
        | some d => { s with procs := s.procs.set i { p with st := .done (.ok d) } }
        | none =>
            { s with procs := s.procs.set i { p with st := .awaitingFetch }
                     upstream := s.upstream + 1 }
      | _ => s
    | none => s
  | .fetchDone i fo =>
    match s.procs.get? i with
    | some p =>
      match p.st with
      | .awaitingFetch =>
        let key := cacheKey p.req.text p.req.sourceLang p.req.targetLang
        match fo with
        | .networkError msg =>
            { s with procs := s.procs.set i { p with st := .done (.error (.network msg)) } }
        | .response ok status body =>
          if ok then
            { s with procs := s.procs.set i { p with st := .done (.ok body) }
                     store := cacheTranslation s.store key body s.now false }
          else
            { s with procs := s.procs.set i { p with st := .done (.error (.http status)) } }
      | _ => s
    | none => s

/-- Run the machine over a list of events. -/
def runEvents (s : Sys) (es : List Event) : Sys :=
  es.foldl step s

/-- An invocation that has not started yet. -/
def readyProc (req : Req) : Proc := { req := req, st := .ready }

/-- An invocation suspended on its upstream fetch. -/
def awaitProc (req : Req) : Proc := { req := req, st := .awaitingFetch }

/-- Initial worker state: empty storage and `n` simultaneous identical
invocations, none started. -/
def initSys (req : Req) (n : Nat) (now : Int) : Sys :=
  { store := [], procs := List.replicate n (readyProc req), now := now, upstream := 0 }

/-- The schedule in which all `n` invocations start (run to their fetch
dispatch) before any fetch settles. -/
def startEvents (n : Nat) : List Event :=
  (List.range n).map .run

/-! ### UI entry points -/

/-- JS `String.prototype.trim()`: strip leading and trailing whitespace.
Implemented by structural recursion over the character list so that it
evaluates inside the kernel. -/
def jsTrim (s : String) : String :=
  String.mk (((s.data.dropWhile Char.isWhitespace).reverse.dropWhile
    Char.isWhitespace).reverse)

/-- JS `a || b` on an optional string field: `undefined` and the empty
string are falsy. -/
def jsOrString (v : Option String) (d : String) : String :=
  match v with
  | none => d
  | some s => if s = "" then d else s

/-- Source language used by the background `onMessage` listener
(background.js line 30): `request.sourceLang || "en"`. -/
def onMessageSourceLang (field : Option String) : String :=
  jsOrString field "en"

/-- Target language used by the background `onMessage` listener
(background.js line 30): `request.targetLang || "zh-cn"`. -/
def onMessageTargetLang (field : Option String) : String :=
  jsOrString field "zh-cn"

/-- Default parameter of `translateText` for `sourceLang`
(background.js line 47). -/
def translateTextDefaultSource : String := "en"

/-- Default parameter of `translateText` for `targetLang`
(background.js line 47). -/
def translateTextDefaultTarget : String := "zh-cn"

/-- Observable actions of the popup `handleTranslate` (popup.js). -/
inductive PopupAct
  | showError (msg : String)
  | sendMessage (text sourceLang targetLang : String)
  | showResult (r : TransResult)
deriving DecidableEq, Repr

/-- How the popup's `chrome.runtime.sendMessage` callback resolves:
a runtime error, or the background's response object
`{success, data, error}`. -/
inductive PopupMsgOutcome
  | runtimeError (msg : String)
  | responded (success : Bool) (data : TransResult) (error : String)
deriving DecidableEq, Repr

/-- The popup entry point `handleTranslate` of popup.js lines 69-119 as a
list of observable actions.  A call while `isTranslating` is set returns
at once with no action; empty trimmed input and identical non-auto
languages show an error without sending; otherwise the request is sent
and the response rendered. -/
def handleTranslate (isTranslating : Bool) (rawText sourceLang targetLang : String)
    (resp : PopupMsgOutcome) : List PopupAct :=
  if isTranslating then []
  else
    let inputText := jsTrim rawText
    if inputText = "" then [.showError "请输入要翻译的文本"]
    else if sourceLang = targetLang ∧ sourceLang ≠ "auto" then
      [.showError "源语言和目标语言不能相同"]
    else
      .sendMessage inputText sourceLang targetLang ::
      match resp with
      | .runtimeError _ => [.showError "翻译服务连接失败，请检查网络连接或稍后重试"]
      | .responded true data _ => [.showResult data]
      | .responded false _ err => [.showError (jsOrString (some err) "翻译失败，请重试")]

/-- Observable actions of the content script `translateSelectedText`
(content.js). -/
inductive ContentAct
  | sendMessage (text : String)
  | displayResult (orig : String) (r : TransResult)
  | displayError (msg : String)
deriving DecidableEq, Repr

/-- How the content script's `chrome.runtime.sendMessage` callback
resolves: a `chrome.runtime.lastError`, a missing response, or the
background's response object `{success, data, error}` (`error` may be
absent). -/
inductive ContentMsgOutcome
  | runtimeError (msg : String)
  | noResponse
  | responded (success : Bool) (data : TransResult) (error : Option String)
deriving DecidableEq, Repr

/-- The content-script entry point `translateSelectedText` of content.js
lines 91-136, returning its observable actions and the final value of the
`isTranslating` flag.  A call while `isTranslating` is set returns at
once: nothing is sent, nothing is displayed and the flag is left as is;
otherwise the request is sent, the response (or failure) is rendered, and
the `finally` block resets the flag. -/
def translateSelectedText (isTranslating : Bool) (text : String)
    (resp : ContentMsgOutcome) : List ContentAct × Bool :=
  if isTranslating then ([], isTranslating)
  else
    let acts :=
      ContentAct.sendMessage text ::
      match resp with
      | .runtimeError msg => [.displayError ("翻译失败: " ++ msg)]
      | .noResponse => [.displayError ("翻译失败: " ++ "No response from background script")]
      | .responded true data _ => [.displayResult text data]
      | .responded false _ (some err) => [.displayError err]
      | .responded false _ none => [.displayError "翻译服务无响应"]
    (acts, false)

/-! ### Concrete fixtures used as test vectors -/

/-- Concrete request used as a test vector. -/
def sampleReq : Req := { text := "hello", sourceLang := "en", targetLang := "zh-cn" }

/-- Concrete upstream response body used as a test vector; the backend
tags its own fresh responses with `cached: false`. -/
def sampleBody : TransResult :=
  { translation := "你好", source_lang := "en", target_lang := "zh-cn"
    original_text := "hello", cached := false }

/-- Concrete successful fetch outcome used as a test vector. -/
def sampleFetch : FetchOutcome := .response true 200 sampleBody

/-- Concrete store holding one entry created at time 0 for `sampleReq`. -/
def sampleStoreAt0 : Store :=
  [(cacheKey "hello" "en" "zh-cn", { data := sampleBody, timestamp := 0 })]

/-- Whether a fetch outcome makes `translateText` throw (rejected
promise, or `!response.ok`). -/
def fetchFails : FetchOutcome → Bool
  | .networkError _ => true
  | .response ok _ _ => !ok

/-- Store obtained by three successive cache writes under three distinct
keys, used as a test vector. -/
def threePuts : Store :=
  cacheTranslation (cacheTranslation (cacheTranslation []
    (cacheKey "a" "en" "zh-cn") sampleBody 0 false)
    (cacheKey "b" "en" "zh-cn") sampleBody 1 false)
    (cacheKey "c" "en" "zh-cn") sampleBody 2 false

/-! ## Helper lemmas -/

theorem lookupKey_setKey_self (store : Store) (k : String) (e : CacheEntry) :
    lookupKey (setKey store k e) k = some e := by
  induction store with
  | nil => simp [setKey, lookupKey]
  | cons hd tl ih =>
      obtain ⟨k₂, e₂⟩ := hd
      by_cases h : k₂ = k
      · simp [setKey, lookupKey, h]
      · simp [setKey, lookupKey, h, ih]

theorem lookupKey_setKey_other (store : Store) (k k₂ : String) (e : CacheEntry)
    (h : k₂ ≠ k) : lookupKey (setKey store k e) k₂ = lookupKey store k₂ := by
  have h₂ : ¬(k = k₂) := fun hh => h hh.symm
  induction store with
  | nil => simp [setKey, lookupKey, h₂]
  | cons hd tl ih =>
      obtain ⟨k₃, e₃⟩ := hd
      by_cases h₃ : k₃ = k
      · subst h₃
        simp [setKey, lookupKey, h₂]
      · simp [setKey, lookupKey, h₃, ih]

theorem length_setKey (store : Store) (k : String) (e : CacheEntry) :
    (setKey store k e).length
      = if hasKey store k then store.length else store.length + 1 := by
  induction store with
  | nil => simp [setKey, hasKey, lookupKey]
  | cons hd tl ih =>
      obtain ⟨k₂, e₂⟩ := hd
      by_cases h : k₂ = k
      · simp [setKey, hasKey, lookupKey, h]
      · have hk : hasKey ((k₂, e₂) :: tl) k = hasKey tl k := by
          simp [hasKey, lookupKey, h]
        have hs : setKey ((k₂, e₂) :: tl) k e = (k₂, e₂) :: setKey tl k e := by
          simp [setKey, h]
        rw [hs, List.length_cons, ih, hk]
        by_cases h₂ : hasKey tl k = true <;> simp [h₂]

theorem get_fresh_of_lookup (store : Store) (k : String) (e : CacheEntry) (now : Int)
    (hfind : lookupKey store k = some e) (h : now - e.timestamp < ttlMs) :
    getCachedTranslation store k now false = some e.data := by
  simp [getCachedTranslation, hfind, h]

theorem get_none_of_expired (store : Store) (k : String) (e : CacheEntry) (now : Int)
    (hfind : lookupKey store k = some e) (h : ttlMs ≤ now - e.timestamp) :
    getCachedTranslation store k now false = none := by
  simp [getCachedTranslation, hfind, not_lt.mpr h]

theorem get_none_mono (store : Store) (k : String) (now now₂ : Int)
    (h : getCachedTranslation store k now false = none) (hle : now ≤ now₂) :
    getCachedTranslation store k now₂ false = none := by
  cases hfind : lookupKey store k with
  | none => simp [getCachedTranslation, hfind]
  | some e =>
      simp only [getCachedTranslation, if_neg Bool.false_ne_true, hfind] at h ⊢
      rw [if_neg]
      have hexp : ¬(now - e.timestamp < ttlMs) := by
        intro hc
        simp [hc] at h
      intro hc
      exact hexp (by linarith)

/-! ## Claims -/

/-- C2 counterexample: after a first successful call for `sampleReq`
(whose upstream body carries `cached: false`), a second identical call
within the TTL returns the stored body verbatim — its `cached` field is
`false`, not `true` as the claim states. -/
theorem c2_no_cached_true_tag :
    (translateTextRun sampleReq [] 0 false sampleFetch false).result = .ok sampleBody ∧
    (translateTextRun sampleReq (translateTextRun sampleReq [] 0 false sampleFetch false).store
        1000 false sampleFetch false).upstreamCalls = 0 ∧
    (translateTextRun sampleReq (translateTextRun sampleReq [] 0 false sampleFetch false).store
        1000 false sampleFetch false).result = .ok sampleBody ∧
    sampleBody.cached = false := by decide

/-- C2 amended: a second `translateText` call with identical arguments,
issued within the TTL after a first successful call, performs zero
upstream calls and returns the stored first upstream body unchanged (the
extension adds no `cached: true` tag: the `cached` field is whatever the
upstream response carried). -/
theorem c2_cache_hit_zero_upstream (req : Req) (store : Store) (now now₂ : Int)
    (status : Nat) (body : TransResult) (fo₂ : FetchOutcome)
    (hmiss : getCachedTranslation store
        (cacheKey req.text req.sourceLang req.targetLang) now false = none)
    (hfresh : now₂ - now < ttlMs) :
    (translateTextRun req store now false (.response true status body) false).result
        = .ok body ∧
    (translateTextRun req
        (translateTextRun req store now false (.response true status body) false).store
        now₂ false fo₂ false).upstreamCalls = 0 ∧
    (translateTextRun req
        (translateTextRun req store now false (.response true status body) false).store
        now₂ false fo₂ false).result = .ok body := by
  have hstore : (translateTextRun req store now false (.response true status body) false).store
      = setKey store (cacheKey req.text req.sourceLang req.targetLang)
          { data := body, timestamp := now } := by
    simp [translateTextRun, hmiss, cacheTranslation]
  have hres : (translateTextRun req store now false (.response true status body) false).result
      = .ok body := by
    simp [translateTextRun, hmiss]
  have hhit : getCachedTranslation
      (setKey store (cacheKey req.text req.sourceLang req.targetLang)
        { data := body, timestamp := now })
      (cacheKey req.text req.sourceLang req.targetLang) now₂ false = some body :=
    get_fresh_of_lookup _ _ { data := body, timestamp := now } now₂
      (lookupKey_setKey_self store _ _) hfresh
  refine ⟨hres, ?_, ?_⟩ <;> rw [hstore] <;> simp [translateTextRun, hhit]

/-- C2 witness: the amended statement at the concrete fixtures. -/
theorem c2_cache_hit_zero_upstream_witness :
    (translateTextRun sampleReq [] 0 false (.response true 200 sampleBody) false).result
        = .ok sampleBody ∧
    (translateTextRun sampleReq
        (translateTextRun sampleReq [] 0 false (.response true 200 sampleBody) false).store
        1000 false sampleFetch false).upstreamCalls = 0 ∧
    (translateTextRun sampleReq
        (translateTextRun sampleReq [] 0 false (.response true 200 sampleBody) false).store
        1000 false sampleFetch false).result = .ok sampleBody :=
  c2_cache_hit_zero_upstream sampleReq [] 0 1000 200 sampleBody sampleFetch
    (by decide) (by decide)

/-- C3 counterexample: with an entry created at time 0 and a lookup at
`now = ttlMs` (so `now - createdAt = ttl`, inside the window the claim
describes), `getCachedTranslation` returns absent — the code's freshness
test is strict.  Moreover detecting the expiry deletes nothing: a full
run whose upstream fails leaves the expired entry in the store. -/
theorem c3_boundary_and_no_delete :
    getCachedTranslation sampleStoreAt0 (cacheKey "hello" "en" "zh-cn") ttlMs false = none ∧
    ttlMs - (0 : Int) ≤ ttlMs ∧
    (translateTextRun sampleReq sampleStoreAt0 ttlMs false
        (.networkError "down") false).store = sampleStoreAt0 := by decide

/-- C3 amended: `getCachedTranslation` returns the entry while
`now - createdAt < ttl` (strictly) and absent once
`now - createdAt ≥ ttl`; expiry detection deletes nothing — any run that
reads the store at such a time and whose upstream fails leaves the store,
expired entry included, unchanged. -/
theorem c3_expiry_strict_no_eviction (store : Store) (k : String) (e : CacheEntry)
    (now : Int) (hfind : lookupKey store k = some e) :
    (now - e.timestamp < ttlMs → getCachedTranslation store k now false = some e.data) ∧
    (ttlMs ≤ now - e.timestamp →
      getCachedTranslation store k now false = none ∧
      ∀ (req : Req) (msg : String),
        (translateTextRun req store now false (.networkError msg) false).store = store) := by
  refine ⟨fun h => get_fresh_of_lookup store k e now hfind h,
    fun h => ⟨get_none_of_expired store k e now hfind h, ?_⟩⟩
  intro req msg
  cases hget : getCachedTranslation store
      (cacheKey req.text req.sourceLang req.targetLang) now false with
  | none => simp [translateTextRun, hget]
  | some d => simp [translateTextRun, hget]

/-- C3 witness: the amended statement at the concrete expired fixture. -/
theorem c3_expiry_strict_no_eviction_witness :
    getCachedTranslation sampleStoreAt0 (cacheKey "hello" "en" "zh-cn") ttlMs false = none ∧
    (translateTextRun sampleReq sampleStoreAt0 ttlMs false
        (.networkError "down") false).store = sampleStoreAt0 := by
  have h := (c3_expiry_strict_no_eviction sampleStoreAt0 (cacheKey "hello" "en" "zh-cn")
      { data := sampleBody, timestamp := 0 } ttlMs (by decide)).2 (by decide)
  exact ⟨h.1, h.2 sampleReq "down"⟩

/-- C4 counterexample: three inserts under distinct keys all remain in
the store (size 3, every key still present) — no capacity bound exists
and no oldest-first eviction ever runs. -/
theorem c4_no_eviction_at_three :
    threePuts.length = 3 ∧
    hasKey threePuts (cacheKey "a" "en" "zh-cn") = true ∧
    hasKey threePuts (cacheKey "b" "en" "zh-cn") = true ∧
    hasKey threePuts (cacheKey "c" "en" "zh-cn") = true := by decide

/-- C4 amended: `cacheTranslation` never evicts: it overwrites in place
when the key is present and appends otherwise, every other entry is
retained, and the store size grows by one per new key with no maximum —
the size never decreases. -/
theorem c4_put_never_evicts (store : Store) (k : String) (body : TransResult) (now : Int) :
    ((cacheTranslation store k body now false).length
        = if hasKey store k then store.length else store.length + 1) ∧
    lookupKey (cacheTranslation store k body now false) k
        = some { data := body, timestamp := now } ∧
    (∀ k₂, k₂ ≠ k →
        lookupKey (cacheTranslation store k body now false) k₂ = lookupKey store k₂) ∧
    store.length ≤ (cacheTranslation store k body now false).length := by
  refine ⟨?_, ?_, ?_, ?_⟩
  · simpa [cacheTranslation] using length_setKey store k { data := body, timestamp := now }
  · simpa [cacheTranslation] using lookupKey_setKey_self store k { data := body, timestamp := now }
  · intro k₂ h
    simpa [cacheTranslation] using
      lookupKey_setKey_other store k k₂ { data := body, timestamp := now } h
  · have hlen := length_setKey store k { data := body, timestamp := now }
    simp only [cacheTranslation, if_neg Bool.false_ne_true]
    rw [hlen]
    split <;> omega

/-- C4 witness: the amended statement at a concrete store and keys. -/
theorem c4_put_never_evicts_witness :
    ((cacheTranslation sampleStoreAt0 (cacheKey "b" "en" "zh-cn") sampleBody 5 false).length
        = if hasKey sampleStoreAt0 (cacheKey "b" "en" "zh-cn") then sampleStoreAt0.length
          else sampleStoreAt0.length + 1) ∧
    lookupKey (cacheTranslation sampleStoreAt0 (cacheKey "b" "en" "zh-cn") sampleBody 5 false)
        (cacheKey "hello" "en" "zh-cn")
      = lookupKey sampleStoreAt0 (cacheKey "hello" "en" "zh-cn") := by
  have h := c4_put_never_evicts sampleStoreAt0 (cacheKey "b" "en" "zh-cn") sampleBody 5
  exact ⟨h.1, h.2.2.1 _ (by decide)⟩

/-- C5 counterexample: `translateText` performs no validation: an
empty-text request, a 5001-character request and an identical-language
request each dispatch one upstream call (not zero) and none fails with a
validation error — the empty-text call returns the upstream body. -/
theorem c5_no_validation_in_core :
    (translateTextRun { text := "", sourceLang := "en", targetLang := "zh-cn" }
        [] 0 false sampleFetch false).upstreamCalls = 1 ∧
    (translateTextRun { text := "", sourceLang := "en", targetLang := "zh-cn" }
        [] 0 false sampleFetch false).result = .ok sampleBody ∧
    (translateTextRun ⟨String.mk (List.replicate 5001 'x'), "en", "zh-cn"⟩
        [] 0 false sampleFetch false).upstreamCalls = 1 ∧
    (String.mk (List.replicate 5001 'x')).length = 5001 ∧
    (translateTextRun { text := "hi", sourceLang := "en", targetLang := "en" }
        [] 0 false sampleFetch false).upstreamCalls = 1 := by
  refine ⟨by decide, by decide, by decide, ?_, by decide⟩
  show (List.replicate 5001 'x').length = 5001
  exact List.length_replicate 5001 'x'

/-- C5 amended: the core `translateText` validates nothing — any request
whose cache lookup misses dispatches exactly one upstream call, whatever
its text; only the popup blocks empty trimmed input and identical
non-auto languages before sending (and it enforces no length bound). -/
theorem c5_validation_only_in_popup (req : Req) (store : Store) (now : Int)
    (fo : FetchOutcome)
    (hmiss : getCachedTranslation store
        (cacheKey req.text req.sourceLang req.targetLang) now false = none) :
    (translateTextRun req store now false fo false).upstreamCalls = 1 ∧
    (∀ (raw s t : String) (resp : PopupMsgOutcome), jsTrim raw = "" →
        handleTranslate false raw s t resp = [.showError "请输入要翻译的文本"]) ∧
    (∀ (raw s : String) (resp : PopupMsgOutcome), jsTrim raw ≠ "" → s ≠ "auto" →
        handleTranslate false raw s s resp = [.showError "源语言和目标语言不能相同"]) := by
  refine ⟨?_, ?_, ?_⟩
  · cases fo with
    | networkError msg => simp [translateTextRun, hmiss]
    | response ok status body =>
        cases ok <;> simp [translateTextRun, hmiss]
  · intro raw s t resp h
    simp [handleTranslate, h]
  · intro raw s resp h h₂
    simp [handleTranslate, h, h₂]

/-- C5 witness: the amended statement at concrete inputs. -/
theorem c5_validation_only_in_popup_witness :
    (translateTextRun { text := "", sourceLang := "en", targetLang := "zh-cn" }
        [] 0 false sampleFetch false).upstreamCalls = 1 ∧
    handleTranslate false "  " "en" "zh-cn" (.responded true sampleBody "")
        = [.showError "请输入要翻译的文本"] ∧
    handleTranslate false "hi" "en" "en" (.responded true sampleBody "")
        = [.showError "源语言和目标语言不能相同"] := by
  have h := c5_validation_only_in_popup
    { text := "", sourceLang := "en", targetLang := "zh-cn" } [] 0 sampleFetch (by decide)
  exact ⟨h.1, h.2.1 "  " "en" "zh-cn" _ (by decide), h.2.2 "hi" "en" _ (by decide) (by decide)⟩

/-- C6: when the upstream call fails, nothing is written to the cache for
the fingerprint (the store is unchanged and the error surfaces), and a
later identical call whose time is no earlier performs a fresh upstream
call — no cached failure is returned. -/
theorem c6_failure_not_cached (req : Req) (store : Store) (now now₂ : Int)
    (fo fo₂ : FetchOutcome)
    (hmiss : getCachedTranslation store
        (cacheKey req.text req.sourceLang req.targetLang) now false = none)
    (hle : now ≤ now₂) (hfail : fetchFails fo = true) :
    (∃ e, (translateTextRun req store now false fo false).result = .error e) ∧
    (translateTextRun req store now false fo false).store = store ∧
    (translateTextRun req store now₂ false fo₂ false).upstreamCalls = 1 := by
  have hmiss₂ : getCachedTranslation store
      (cacheKey req.text req.sourceLang req.targetLang) now₂ false = none :=
    get_none_mono store _ now now₂ hmiss hle
  refine ⟨?_, ?_, ?_⟩
  · cases fo with
    | networkError msg => exact ⟨.network msg, by simp [translateTextRun, hmiss]⟩
    | response ok status body =>
        cases ok with
        | false => exact ⟨.http status, by simp [translateTextRun, hmiss]⟩
        | true => simp [fetchFails] at hfail
  · cases fo with
    | networkError msg => simp [translateTextRun, hmiss]
    | response ok status body =>
        cases ok with
        | false => simp [translateTextRun, hmiss]
        | true => simp [fetchFails] at hfail
  · cases fo₂ with
    | networkError msg => simp [translateTextRun, hmiss₂]
    | response ok status body =>
        cases ok <;> simp [translateTextRun, hmiss₂]

/-- C6 witness: the statement at a concrete failing-then-retried run. -/
theorem c6_failure_not_cached_witness :
    (∃ e, (translateTextRun sampleReq [] 0 false (.networkError "down") false).result
        = .error e) ∧
    (translateTextRun sampleReq [] 0 false (.networkError "down") false).store = [] ∧
    (translateTextRun sampleReq [] 50 false sampleFetch false).upstreamCalls = 1 :=
  c6_failure_not_cached sampleReq [] 0 50 (.networkError "down") sampleFetch
    (by decide) (by decide) (by decide)

/-- C7 counterexample: failures inside the cache layer are swallowed: a
run whose `chrome.storage.local.get` rejects still resolves with the
upstream body (the read failure surfaces nowhere), and a run whose
`chrome.storage.local.set` rejects resolves with the body while the store
is left unchanged (the write failure surfaces nowhere). -/
theorem c7_cache_failures_swallowed :
    (translateTextRun sampleReq [] 0 true sampleFetch false).result = .ok sampleBody ∧
    (translateTextRun sampleReq [] 0 false sampleFetch true).result = .ok sampleBody ∧
    (translateTextRun sampleReq [] 0 false sampleFetch true).store = [] := by decide

/-- C7 amended: upstream failures propagate unchanged to the immediate
caller of `translateText`; but cache-read failures are swallowed and
treated as a miss (the call still dispatches upstream), and cache-write
failures are swallowed (the translation is still returned and the store
left unchanged). -/
theorem c7_upstream_propagates_cache_swallowed (req : Req) (store : Store) (now : Int)
    (gf sf : Bool)
    (hmiss : getCachedTranslation store
        (cacheKey req.text req.sourceLang req.targetLang) now gf = none) :
    (∀ msg, (translateTextRun req store now gf (.networkError msg) sf).result
        = .error (.network msg)) ∧
    (∀ (status : Nat) (body : TransResult),
        (translateTextRun req store now gf (.response false status body) sf).result
          = .error (.http status)) ∧
    (∀ (fo₂ : FetchOutcome) (sf₂ : Bool),
        (translateTextRun req store now true fo₂ sf₂).upstreamCalls = 1) ∧
    (∀ (status : Nat) (body : TransResult),
        (translateTextRun req store now gf (.response true status body) true).result
            = .ok body ∧
        (translateTextRun req store now gf (.response true status body) true).store
            = store) := by
  have hmiss₂ : ∀ k, getCachedTranslation store k now true = none := by
    intro k
    simp [getCachedTranslation]
  refine ⟨?_, ?_, ?_, ?_⟩
  · intro msg
    simp [translateTextRun, hmiss]
  · intro status body
    simp [translateTextRun, hmiss]
  · intro fo₂ sf₂
    cases fo₂ with
    | networkError msg => simp [translateTextRun, hmiss₂]
    | response ok status body =>
        cases ok <;> simp [translateTextRun, hmiss₂]
  · intro status body
    constructor <;> simp [translateTextRun, hmiss, cacheTranslation]

/-- C7 witness: the amended statement at concrete inputs. -/
theorem c7_upstream_propagates_cache_swallowed_witness :
    (translateTextRun sampleReq [] 0 false (.networkError "down") false).result
        = .error (.network "down") ∧
    (translateTextRun sampleReq [] 0 false (.response false 500 sampleBody) false).result
        = .error (.http 500) ∧
    (translateTextRun sampleReq [] 0 true sampleFetch false).upstreamCalls = 1 ∧
    (translateTextRun sampleReq [] 0 false (.response true 200 sampleBody) true).result
        = .ok sampleBody := by
  have h := c7_upstream_propagates_cache_swallowed sampleReq [] 0 false false (by decide)
  exact ⟨h.1 "down", h.2.1 500 sampleBody, h.2.2.1 sampleFetch false,
    (h.2.2.2 200 sampleBody).1⟩

/-- C8 counterexample: the background `onMessage` listener resolves a
missing `sourceLang` to `"en"` (via `request.sourceLang || "en"`), not to
`"auto"` as the claim states. -/
theorem c8_default_source_is_en :
    onMessageSourceLang none = "en" ∧ onMessageSourceLang none ≠ "auto" := by decide

/-- C8 amended: the defaults applied to an inbound translate call that
omits the language arguments are `sourceLang = "en"` and
`targetLang = "zh-cn"` — both at the `onMessage` listener (where a JS
`||` also maps an empty string to the default) and in `translateText`'s
own default parameters. -/
theorem c8_defaults_en_zhcn :
    (∀ field : Option String, field = none ∨ field = some "" →
        onMessageSourceLang field = "en" ∧ onMessageTargetLang field = "zh-cn") ∧
    (∀ s : String, s ≠ "" →
        onMessageSourceLang (some s) = s ∧ onMessageTargetLang (some s) = s) ∧
    translateTextDefaultSource = "en" ∧ translateTextDefaultTarget = "zh-cn" := by
  refine ⟨?_, ?_, rfl, rfl⟩
  · rintro field (rfl | rfl) <;> constructor <;> rfl
  · intro s h
    constructor <;> simp [onMessageSourceLang, onMessageTargetLang, jsOrString, h]

/-- C8 witness: the amended statement at concrete fields. -/
theorem c8_defaults_en_zhcn_witness :
    onMessageSourceLang (some "") = "en" ∧ onMessageTargetLang none = "zh-cn" ∧
    onMessageSourceLang (some "fr") = "fr" := by
  have h := c8_defaults_en_zhcn
  exact ⟨(h.1 (some "") (Or.inr rfl)).1, (h.1 none (Or.inl rfl)).2,
    (h.2.1 "fr" (by decide)).1⟩

/-- C9: the fingerprint is not injective: the distinct triples
`("a_b", "c", "d")` and `("a", "b_c", "d")` produce the same cache key
`translate_a_b_c_d`, and a result cached under the first triple's key is
returned by a lookup under the second triple's key. -/
theorem c9_fingerprint_collision :
    cacheKey "a_b" "c" "d" = cacheKey "a" "b_c" "d" ∧
    (("a_b", "c", "d") : String × String × String) ≠ ("a", "b_c", "d") ∧
    ∀ (r : TransResult) (now : Int),
      getCachedTranslation
        (cacheTranslation [] (cacheKey "a_b" "c" "d") r now false)
        (cacheKey "a" "b_c" "d") now false = some r := by
  refine ⟨by decide, by decide, ?_⟩
  intro r now
  have hk : cacheKey "a" "b_c" "d" = cacheKey "a_b" "c" "d" := by decide
  rw [hk]
  have hfind : lookupKey (cacheTranslation [] (cacheKey "a_b" "c" "d") r now false)
      (cacheKey "a_b" "c" "d") = some { data := r, timestamp := now } := by
    simpa [cacheTranslation] using
      lookupKey_setKey_self [] (cacheKey "a_b" "c" "d") { data := r, timestamp := now }
  have hfresh : now - now < ttlMs := by
    simp [ttlMs]
  exact get_fresh_of_lookup _ _ _ now hfind hfresh

/-- C10: while the `isTranslating` flag is set, a new invocation of the
content script's `translateSelectedText` performs no action at all (no
message sent, nothing displayed, the flag untouched) and the popup's
`handleTranslate` likewise performs no action — concurrent callers are
dropped rather than attached to the in-flight outcome. -/
theorem c10_inflight_callers_dropped :
    (∀ (text : String) (resp : ContentMsgOutcome),
        translateSelectedText true text resp = ([], true)) ∧
    (∀ (raw s t : String) (resp : PopupMsgOutcome),
        handleTranslate true raw s t resp = []) := by
  exact ⟨fun text resp => rfl, fun raw s t resp => rfl⟩

/-- C1 counterexample: two concurrent `translateText` invocations with
identical arguments, both issued (run to their fetch dispatch) before
either resolves, dispatch two upstream calls — not exactly one: the code
has no request deduplication. -/
theorem c1_two_concurrent_two_upstream :
    (runEvents (initSys sampleReq 2 0)
        [.run 0, .run 1, .fetchDone 0 sampleFetch, .fetchDone 1 sampleFetch]).upstream
      = 2 ∧
    (runEvents (initSys sampleReq 2 0)
        [.run 0, .run 1, .fetchDone 0 sampleFetch, .fetchDone 1 sampleFetch]).procs
      = [{ req := sampleReq, st := .done (.ok sampleBody) },
         { req := sampleReq, st := .done (.ok sampleBody) }] := by decide

theorem get_opt_append_length {α : Type} :
    ∀ (l₁ l₂ : List α), (l₁ ++ l₂).get? l₁.length = l₂.get? 0
  | [], _ => rfl
  | _ :: l₁, l₂ => get_opt_append_length l₁ l₂

theorem set_append_length {α : Type} :
    ∀ (l₁ l₂ : List α) (y : α), (l₁ ++ l₂).set l₁.length y = l₁ ++ l₂.set 0 y
  | [], _, _ => rfl
  | x :: l₁, l₂, y => congrArg (x :: ·) (set_append_length l₁ l₂ y)

theorem replicate_append_cons {α : Type} (k : Nat) (a : α) (l : List α) :
    List.replicate k a ++ a :: l = a :: (List.replicate k a ++ l) := by
  induction k with
  | zero => rfl
  | succ k ih => simp [List.replicate_succ, ih]

theorem runEvents_starts (req : Req) (now : Int) :
    ∀ n k : Nat,
      runEvents
        { store := []
          procs := List.replicate k (awaitProc req) ++ List.replicate n (readyProc req)
          now := now, upstream := k }
        ((List.range' k n).map Event.run)
      = { store := [], procs := List.replicate (k + n) (awaitProc req), now := now
          upstream := k + n } := by
  intro n
  induction n with
  | zero => intro k; simp [runEvents, List.range']
  | succ n ih =>
      intro k
      have hget : (List.replicate k (awaitProc req)
            ++ List.replicate (n + 1) (readyProc req)).get? k
          = some { req := req, st := PState.ready } := by
        have h := get_opt_append_length (List.replicate k (awaitProc req))
          (List.replicate (n + 1) (readyProc req))
        simpa [List.replicate_succ, readyProc] using h
      have hset : (List.replicate k (awaitProc req)
            ++ List.replicate (n + 1) (readyProc req)).set k
              { req := req, st := PState.awaitingFetch }
          = List.replicate (k + 1) (awaitProc req) ++ List.replicate n (readyProc req) := by
        have h := set_append_length (List.replicate k (awaitProc req))
          (List.replicate (n + 1) (readyProc req)) { req := req, st := PState.awaitingFetch }
        simp only [List.length_replicate] at h
        rw [h]
        simp [List.replicate_succ, replicate_append_cons, readyProc, awaitProc]
      have hstep : step
          { store := []
            procs := List.replicate k (awaitProc req) ++ List.replicate (n + 1) (readyProc req)
            now := now, upstream := k } (.run k)
          = { store := []
              procs := List.replicate (k + 1) (awaitProc req) ++ List.replicate n (readyProc req)
              now := now, upstream := k + 1 } := by
        simp only [step, hget]
        simp [getCachedTranslation, lookupKey, hset]
      have hevs : (List.range' k (n + 1)).map Event.run
          = Event.run k :: (List.range' (k + 1) n).map Event.run := rfl
      rw [hevs]
      show runEvents (step _ (.run k)) ((List.range' (k + 1) n).map Event.run) = _
      rw [hstep, ih (k + 1)]
      have harith : k + 1 + n = k + (n + 1) := by omega
      rw [harith]

/-- C1 amended: for every N ≥ 0 concurrent `translateText` invocations
with identical arguments issued before any of them resolves, exactly N
upstream calls are dispatched — one per caller, with no deduplication —
and each invocation is then suspended on its own upstream fetch. -/
theorem c1_no_dedup (req : Req) (now : Int) (n : Nat) :
    runEvents (initSys req n now) (startEvents n)
      = { store := [], procs := List.replicate n (awaitProc req), now := now
          upstream := n } := by
  have h := runEvents_starts req now n 0
  simpa [initSys, startEvents, List.range_eq_range'] using h

end TranslateExt
